import Mathlib

/-!
Verification of the AirQualityPredict feature pipeline and inference service.

Shallow embedding of the repository's Python sources:
  * `config.py`    — constants (`FEATURE_COLUMNS`, `TEST_SIZE`, `CITY`).
  * `preprocess.py` — `add_lag_features`, `add_rolling_averages`,
    `add_calendar_features`, `add_target`, `clean_and_save`.
  * `train.py`     — `chronological_split`.
  * `app.py`       — `pm25_to_aqi_category`, `predict`, `health_check`,
    and the startup model-loading `try/except`.

Conventions of the embedding: pandas column values are rationals (`ℚ`);
a missing value (`NaN`) is `Option.none`; a DataFrame is a structure of
column lists; dates are days since 1970-01-01 (an integer), matching
pandas' `Timestamp` internals.  Rounding `round(x, 1)` / `.round(1)`
rounds half to even, as NumPy and Python document.
-/

namespace AirQuality

/-- Round a rational to the nearest integer, ties to even
(the rounding mode of Python's `round` and NumPy's `np.round`). -/
def roundHalfEven (q : ℚ) : ℤ :=
  let f := ⌊q⌋
  let r := q - (f : ℚ)
  if r < 1/2 then f
  else if 1/2 < r then f + 1
  else if Even f then f else f + 1

/-- `round(x, 1)`: round to one decimal place, ties to even. -/
def rnd1 (q : ℚ) : ℚ := (roundHalfEven (10 * q) : ℚ) / 10

/-! ## config.py -/

/-- Embeds `CITY` (config.py line 7). -/
def CITY : String := "Skopje"

/-- Embeds `TEST_SIZE = 0.2` (config.py line 22). -/
def TEST_SIZE : ℚ := 0.2

/-- Embeds `FEATURE_COLUMNS` (config.py lines 27-36): the fixed column
order shared between training and serving. -/
def FEATURE_COLUMNS : List String :=
  [ "pm25"
  , "pm25_lag_1"
  , "pm25_lag_2"
  , "pm25_lag_7"
  , "pm25_rolling_3"
  , "pm25_rolling_7"
  , "day_of_week"
  , "month" ]

/-- Embeds `TARGET_COLUMN` (config.py line 38). -/
def TARGET_COLUMN : String := "pm25_next_day"

/-! ## Calendar arithmetic

pandas dates are modelled as days since 1970-01-01.  `weekdayOf` embeds
`Series.dt.dayofweek` (Monday = 0 … Sunday = 6; 1970-01-01 was a
Thursday, hence the offset 3) and `monthOf` embeds `Series.dt.month`
(1-12), via the standard civil-from-days conversion, valid throughout
the representable `Timestamp` range (years 1677-2262). -/

/-- Weekday of an epoch day, Monday = 0 … Sunday = 6
(pandas `dt.dayofweek`). -/
def weekdayOf (z : ℤ) : ℤ := Int.emod (z + 3) 7

/-- Month (1-12) of an epoch day (pandas `dt.month`), by the civil
calendar conversion; valid for all dates pandas can represent. -/
def monthOf (z : ℤ) : ℕ :=
  let days := (z + 719468).toNat
  let doe := days % 146097
  let yoe := (doe - doe / 1460 + doe / 36524 - doe / 146096) / 365
  let doy := doe - (365 * yoe + yoe / 4 - yoe / 100)
  let mp := (5 * doy + 2) / 153
  if mp < 10 then mp + 3 else mp - 9

/-! ## Data model -/

/-- One row of the daily aggregated series produced by
`aggregate_daily` (preprocess.py): a date and that day's mean PM2.5. -/
structure DailyRec where
  date : ℤ
  pm25 : ℚ
deriving Repr, DecidableEq

/-- The working DataFrame of `preprocess.py`, column-wise.  Columns not
yet added are empty lists; a `NaN` cell is `none`. -/
structure Frame where
  date : List ℤ
  pm25 : List ℚ
  pm25_lag_1 : List (Option ℚ) := []
  pm25_lag_2 : List (Option ℚ) := []
  pm25_lag_7 : List (Option ℚ) := []
  pm25_rolling_3 : List (Option ℚ) := []
  pm25_rolling_7 : List (Option ℚ) := []
  day_of_week : List ℤ := []
  month : List ℕ := []
  pm25_next_day : List (Option ℚ) := []
deriving Repr

/-- One fully-defined processed row, as written by `clean_and_save`:
the eight feature columns in `FEATURE_COLUMNS` order plus the target. -/
structure Sample where
  pm25 : ℚ
  pm25_lag_1 : ℚ
  pm25_lag_2 : ℚ
  pm25_lag_7 : ℚ
  pm25_rolling_3 : ℚ
  pm25_rolling_7 : ℚ
  day_of_week : ℤ
  month : ℕ
  pm25_next_day : ℚ
deriving Repr, DecidableEq

/-! ## preprocess.py -/

/-- pandas `Series.shift(k)`: cell `i` holds column value `i - k`, or
`NaN` when `i < k`. -/
def shift (k : ℕ) (xs : List ℚ) : List (Option ℚ) :=
  (List.range xs.length).map fun i => if i < k then none else xs[i - k]?

/-- pandas `Series.shift(-1)` (used for the target): cell `i` holds
column value `i + 1`, or `NaN` for the last row. -/
def shiftNeg (xs : List ℚ) : List (Option ℚ) :=
  (List.range xs.length).map fun i => xs[i + 1]?

/-- pandas `Series.rolling(window=w).mean().round(1)`: cell `i` is the
mean of cells `i - w + 1 … i` rounded to one decimal, or `NaN` when
fewer than `w` cells are available. -/
def rollingMean (w : ℕ) (xs : List ℚ) : List (Option ℚ) :=
  (List.range xs.length).map fun i =>
    if i + 1 < w then none
    else some (rnd1 (((xs.drop (i + 1 - w)).take w).sum / (w : ℚ)))

/-- The DataFrame entering the feature steps: the output of
`aggregate_daily`, columns `date` and `pm25`. -/
def initFrame (rows : List DailyRec) : Frame :=
  { date := rows.map (·.date), pm25 := rows.map (·.pm25) }

/-- Embeds `add_lag_features` (preprocess.py lines 45-55):
`df["pm25_lag_k"] = df["pm25"].shift(k)` for k = 1, 2, 7. -/
def add_lag_features (f : Frame) : Frame :=
  { f with
    pm25_lag_1 := shift 1 f.pm25
    pm25_lag_2 := shift 2 f.pm25
    pm25_lag_7 := shift 7 f.pm25 }

/-- Embeds `add_rolling_averages` (preprocess.py lines 58-67):
`df["pm25_rolling_w"] = df["pm25"].rolling(window=w).mean().round(1)`
for w = 3, 7. -/
def add_rolling_averages (f : Frame) : Frame :=
  { f with
    pm25_rolling_3 := rollingMean 3 f.pm25
    pm25_rolling_7 := rollingMean 7 f.pm25 }

/-- Embeds `add_calendar_features` (preprocess.py lines 70-83):
`tomorrow = df["date"] + pd.Timedelta(days=1)`;
`df["day_of_week"] = tomorrow.dt.dayofweek`;
`df["month"] = tomorrow.dt.month`. -/
def add_calendar_features (f : Frame) : Frame :=
  { f with
    day_of_week := f.date.map fun d => weekdayOf (d + 1)
    month := f.date.map fun d => monthOf (d + 1) }

/-- Embeds `add_target` (preprocess.py lines 86-93):
`df[TARGET_COLUMN] = df["pm25"].shift(-1)`. -/
def add_target (f : Frame) : Frame :=
  { f with pm25_next_day := shiftNeg f.pm25 }

/-- Read cell `i` of a nullable column: `none` when the row index is out
of range or the cell is `NaN`. -/
def cell (col : List (Option ℚ)) (i : ℕ) : Option ℚ := (col[i]?).bind id

/-- Row `i` of `df[FEATURE_COLUMNS + [TARGET_COLUMN]]` when every one of
those nine cells is defined, else `none` (the row `dropna` discards). -/
def completeRow (f : Frame) (i : ℕ) : Option Sample :=
  match (f.pm25[i]?), cell f.pm25_lag_1 i, cell f.pm25_lag_2 i,
        cell f.pm25_lag_7 i, cell f.pm25_rolling_3 i,
        cell f.pm25_rolling_7 i, (f.day_of_week[i]?), (f.month[i]?),
        cell f.pm25_next_day i with
  | some p, some l1, some l2, some l7, some r3, some r7, some dw,
    some mo, some tg => some ⟨p, l1, l2, l7, r3, r7, dw, mo, tg⟩
  | _, _, _, _, _, _, _, _, _ => none

/-- Embeds `clean_and_save` (preprocess.py lines 96-112):
`df[FEATURE_COLUMNS + [TARGET_COLUMN]].dropna().reset_index(drop=True)`
— keep, in order, exactly the rows whose nine selected cells are all
defined. -/
def clean_and_save (f : Frame) : List Sample :=
  (List.range f.pm25.length).filterMap (completeRow f)

/-- The DataFrame after all four feature steps of
`preprocess.py.__main__`, in source order: lags, rolling averages,
calendar features, target. -/
def pipeFrame (rows : List DailyRec) : Frame :=
  add_target (add_calendar_features
    (add_rolling_averages (add_lag_features (initFrame rows))))

/-- The offline pipeline of `preprocess.py.__main__` from the daily
series on: lags, rolling averages, calendar features, target, clean. -/
def pipeline (rows : List DailyRec) : List Sample :=
  clean_and_save (pipeFrame rows)

/-- Mean of the `w` pm25 values of rows `i - w + 1 … i` (positional,
out-of-range reads defaulting — only used under `w ≤ i + 1`). -/
def meanWindow (w : ℕ) (rows : List DailyRec) (i : ℕ) : ℚ :=
  (∑ j ∈ Finset.range w, (rows.getD (i + 1 - w + j) ⟨0, 0⟩).pm25) / (w : ℚ)

/-- What row `i` of the processed dataset must contain, spelled out
directly over the daily series: today's pm25, the three positional
lags, the two rounded rolling means, tomorrow's calendar attributes,
and tomorrow's pm25 as target. -/
def fullRow (rows : List DailyRec) (i : ℕ) : Sample :=
  { pm25 := (rows.getD i ⟨0, 0⟩).pm25
    pm25_lag_1 := (rows.getD (i - 1) ⟨0, 0⟩).pm25
    pm25_lag_2 := (rows.getD (i - 2) ⟨0, 0⟩).pm25
    pm25_lag_7 := (rows.getD (i - 7) ⟨0, 0⟩).pm25
    pm25_rolling_3 := rnd1 (meanWindow 3 rows i)
    pm25_rolling_7 := rnd1 (meanWindow 7 rows i)
    day_of_week := weekdayOf ((rows.getD i ⟨0, 0⟩).date + 1)
    month := monthOf ((rows.getD i ⟨0, 0⟩).date + 1)
    pm25_next_day := (rows.getD (i + 1) ⟨0, 0⟩).pm25 }

/-! ## train.py -/

/-- Embeds `split_idx = int(len(X) * (1 - TEST_SIZE))`
(train.py line 43): truncate the product toward zero; the product is
non-negative, so this is the floor. -/
def split_idx (n : ℕ) : ℕ := (⌊(n : ℚ) * (1 - TEST_SIZE)⌋).toNat

/-- Embeds `chronological_split` (train.py lines 34-52): rows
`[0, split_idx)` of both `X` and `y` become Train, the rest Test,
returned as `(X_train, X_test, y_train, y_test)`. -/
def chronological_split {α β : Type} (X : List α) (y : List β) :
    List α × List α × List β × List β :=
  let s := split_idx X.length
  (X.take s, X.drop s, y.take s, y.drop s)

/-! ## app.py -/

/-- Embeds `pm25_to_aqi_category` (app.py lines 67-84): the EPA
breakpoint ladder, tested in ascending order, upper bounds inclusive. -/
def pm25_to_aqi_category (pm25 : ℚ) : String :=
  if pm25 ≤ 12.0 then "Good"
  else if pm25 ≤ 35.4 then "Moderate"
  else if pm25 ≤ 55.4 then "Unhealthy for Sensitive Groups"
  else if pm25 ≤ 150.4 then "Unhealthy"
  else if pm25 ≤ 250.4 then "Very Unhealthy"
  else "Hazardous"

/-- The six category names in ascending severity order. -/
def aqiCategories : List String :=
  [ "Good", "Moderate", "Unhealthy for Sensitive Groups",
    "Unhealthy", "Very Unhealthy", "Hazardous" ]

/-- Index of the breakpoint interval a value falls in (0 = cleanest);
`pm25_to_aqi_category` returns `aqiCategories[severityIndex]`. -/
def severityIndex (pm25 : ℚ) : ℕ :=
  if pm25 ≤ 12.0 then 0
  else if pm25 ≤ 35.4 then 1
  else if pm25 ≤ 55.4 then 2
  else if pm25 ≤ 150.4 then 3
  else if pm25 ≤ 250.4 then 4
  else 5

/-- Embeds the `PredictRequest` pydantic schema (app.py lines 34-57):
the eight feature fields of one observation.  (Pydantic's domain checks
`ge`/`le` reject out-of-range requests before `predict` runs; `Valid`
below captures them.) -/
structure PredictRequest where
  pm25 : ℚ
  pm25_lag_1 : ℚ
  pm25_lag_2 : ℚ
  pm25_lag_7 : ℚ
  pm25_rolling_3 : ℚ
  pm25_rolling_7 : ℚ
  day_of_week : ℤ
  month : ℕ
deriving Repr, DecidableEq

/-- The field-domain constraints pydantic enforces on `PredictRequest`
(`ge=0` on pollutant fields, `0 ≤ day_of_week ≤ 6`, `1 ≤ month ≤ 12`). -/
def PredictRequest.Valid (r : PredictRequest) : Prop :=
  0 ≤ r.pm25 ∧ 0 ≤ r.pm25_lag_1 ∧ 0 ≤ r.pm25_lag_2 ∧ 0 ≤ r.pm25_lag_7 ∧
  0 ≤ r.pm25_rolling_3 ∧ 0 ≤ r.pm25_rolling_7 ∧
  0 ≤ r.day_of_week ∧ r.day_of_week ≤ 6 ∧ 1 ≤ r.month ∧ r.month ≤ 12

instance (r : PredictRequest) : Decidable r.Valid := by
  unfold PredictRequest.Valid; infer_instance

/-- Embeds the `PredictResponse` schema (app.py lines 60-64). -/
structure PredictResponse where
  city : String
  predicted_pm25 : ℚ
  aqi_category : String
  unit : String := "µg/m³"
deriving Repr, DecidableEq

/-- A trained model, as `predict` uses it: a function from the ordered
feature vector to a raw predicted value (`model.predict(features)[0]`). -/
def Model : Type := List ℚ → ℚ

/-- The ordered feature row `predict` assembles (app.py lines 109-118):
`np.array([[pm25, lag1, lag2, lag7, rolling3, rolling7, day_of_week,
month]])` — integers are widened to floats by NumPy. -/
def assembledFeatures (r : PredictRequest) : List ℚ :=
  [ r.pm25, r.pm25_lag_1, r.pm25_lag_2, r.pm25_lag_7,
    r.pm25_rolling_3, r.pm25_rolling_7,
    (r.day_of_week : ℚ), (r.month : ℚ) ]

/-- Embeds the `predict` endpoint (app.py lines 98-127): reject with
HTTP 503 when no model is loaded; otherwise run the model on the
assembled features, clamp at 0, round to one decimal, and attach the
AQI category of the rounded value. -/
def predict (model : Option Model) (r : PredictRequest) :
    Except ℕ PredictResponse :=
  match model with
  | none => .error 503
  | some m =>
    let prediction := rnd1 (max (m (assembledFeatures r)) 0)
    .ok { city := CITY
          predicted_pm25 := prediction
          aqi_category := pm25_to_aqi_category prediction }

/-- The `/health` response shape (app.py lines 88-95). -/
structure HealthResponse where
  status : String
  city : String
  model_loaded : Bool
deriving Repr, DecidableEq

/-- Embeds `health_check` (app.py lines 88-95). -/
def health_check (model : Option Model) : HealthResponse :=
  { status := if model.isSome then "healthy" else "model not loaded"
    city := CITY
    model_loaded := model.isSome }

/-- State of the model artifact on disk at process startup. -/
inductive ArtifactState
  | present (m : Model)
  | missing
  | corrupt
deriving Inhabited

/-- Outcome of the startup `joblib.load` (app.py lines 17-22):
`loaded`/`notLoaded` leave the process running with `model` set or
`None`; `crashed` is an exception escaping the `try`. -/
inductive LoadOutcome
  | loaded (m : Model)
  | notLoaded
  | crashed
deriving Inhabited

/-- Embeds the startup `try: model = joblib.load(...) except
FileNotFoundError: model = None` (app.py lines 17-22).  Only
`FileNotFoundError` — a missing artifact — is caught; a corrupt
artifact raises a different exception, which escapes and aborts
startup. -/
def startupModel : ArtifactState → LoadOutcome
  | .present m => .loaded m
  | .missing => .notLoaded
  | .corrupt => .crashed

/-- The module-level `model` variable after a startup outcome that did
not crash. -/
def modelOf : LoadOutcome → Option Model
  | .loaded m => some m
  | .notLoaded => none
  | .crashed => none

/-! ## Linking the two feature paths (claim C1) -/

/-- Value of a named feature column in a processed `Sample` — how
`clean_and_save` / `load_data` read columns by name.  Integer-valued
columns are widened to floats, as pandas and NumPy do. -/
def sampleColumn (s : Sample) (name : String) : Option ℚ :=
  if name = "pm25" then some s.pm25
  else if name = "pm25_lag_1" then some s.pm25_lag_1
  else if name = "pm25_lag_2" then some s.pm25_lag_2
  else if name = "pm25_lag_7" then some s.pm25_lag_7
  else if name = "pm25_rolling_3" then some s.pm25_rolling_3
  else if name = "pm25_rolling_7" then some s.pm25_rolling_7
  else if name = "day_of_week" then some (s.day_of_week : ℚ)
  else if name = "month" then some (s.month : ℚ)
  else none

/-- The ordered feature vector of a training row: the columns selected
by `FEATURE_COLUMNS`, in that order (`df[FEATURE_COLUMNS]` in
`clean_and_save` and `load_data`). -/
def featureVector (s : Sample) : List ℚ :=
  FEATURE_COLUMNS.filterMap (sampleColumn s)

/-! ## Concrete data for witnesses -/

/-- Nine consecutive daily records starting 2024-01-01 (epoch day
19723), pm25 values 1 … 9. -/
def sampleRows : List DailyRec :=
  [ ⟨19723, 1⟩, ⟨19724, 2⟩, ⟨19725, 3⟩, ⟨19726, 4⟩, ⟨19727, 5⟩,
    ⟨19728, 6⟩, ⟨19729, 7⟩, ⟨19730, 8⟩, ⟨19731, 9⟩ ]

/-- The documented example request from the `PredictRequest` schema. -/
def rq0 : PredictRequest :=
  { pm25 := 45, pm25_lag_1 := 38, pm25_lag_2 := 42, pm25_lag_7 := 55,
    pm25_rolling_3 := 41.7, pm25_rolling_7 := 44,
    day_of_week := 3, month := 1 }

/-- A processed sample carrying the same feature values as `rq0`. -/
def sample0 : Sample :=
  { pm25 := 45, pm25_lag_1 := 38, pm25_lag_2 := 42, pm25_lag_7 := 55,
    pm25_rolling_3 := 41.7, pm25_rolling_7 := 44,
    day_of_week := 3, month := 1, pm25_next_day := 50 }

/-- A model that always outputs −5 (to exercise the clamp). -/
def m0 : Model := fun _ => -5

/-- The response `predict` produces for `rq0` under `m0`. -/
def resp0 : PredictResponse :=
  { city := CITY, predicted_pm25 := 0, aqi_category := "Good" }

/-- Five strictly increasing dates, as a toy dataset for the split. -/
def dates5 : List ℤ := [0, 1, 2, 3, 4]

/-! ## Indexing helper lemmas -/

lemma getElem?_of_lt {α : Type} (xs : List α) (d : α) {i : ℕ}
    (h : i < xs.length) : xs[i]? = some (xs.getD i d) := by
  rw [List.getElem?_eq_getElem h, List.getD_eq_getElem xs d h]

lemma range_map_getElem? {α : Type} (f : ℕ → α) {n i : ℕ} (h : i < n) :
    ((List.range n).map f)[i]? = some (f i) := by
  rw [List.getElem?_map, List.getElem?_range h, Option.map_some']

lemma pm_getD (rows : List DailyRec) {j : ℕ} (h : j < rows.length) :
    (rows.map (·.pm25)).getD j 0 = (rows.getD j ⟨0, 0⟩).pm25 := by
  rw [List.getD_eq_getElem _ 0 (by simpa using h),
    List.getD_eq_getElem _ _ h, List.getElem_map]

lemma date_getD (rows : List DailyRec) {j : ℕ} (h : j < rows.length) :
    (rows.map (·.date)).getD j 0 = (rows.getD j ⟨0, 0⟩).date := by
  rw [List.getD_eq_getElem _ 0 (by simpa using h),
    List.getD_eq_getElem _ _ h, List.getElem_map]

lemma shift_cell (k : ℕ) (xs : List ℚ) {i : ℕ} (h : i < xs.length) :
    cell (shift k xs) i =
      if k ≤ i then some (xs.getD (i - k) 0) else none := by
  unfold cell shift
  rw [range_map_getElem? _ h]
  simp only [Option.some_bind, id_eq]
  rcases Nat.lt_or_ge i k with hk | hk
  · rw [if_pos hk, if_neg (Nat.not_le.mpr hk)]
  · have hik : i - k < xs.length := by omega
    rw [if_neg (Nat.not_lt.mpr hk), if_pos hk, getElem?_of_lt xs 0 hik]

lemma shiftNeg_cell (xs : List ℚ) {i : ℕ} (h : i < xs.length) :
    cell (shiftNeg xs) i =
      if i + 1 < xs.length then some (xs.getD (i + 1) 0) else none := by
  unfold cell shiftNeg
  rw [range_map_getElem? _ h]
  simp only [Option.some_bind, id_eq]
  rcases Nat.lt_or_ge (i + 1) xs.length with h1 | h1
  · rw [if_pos h1, getElem?_of_lt xs 0 h1]
  · rw [if_neg (by omega), List.getElem?_eq_none h1]

lemma rollingMean_cell (w : ℕ) (xs : List ℚ) {i : ℕ} (h : i < xs.length) :
    cell (rollingMean w xs) i =
      if w ≤ i + 1 then
        some (rnd1 (((xs.drop (i + 1 - w)).take w).sum / (w : ℚ)))
      else none := by
  unfold cell rollingMean
  rw [range_map_getElem? _ h]
  simp only [Option.some_bind, id_eq]
  rcases Nat.lt_or_ge (i + 1) w with h1 | h1
  · rw [if_pos h1, if_neg (Nat.not_le.mpr h1)]
  · rw [if_neg (Nat.not_lt.mpr h1), if_pos h1]

lemma sum_slice (xs : List ℚ) (a w : ℕ) (h : a + w ≤ xs.length) :
    ((xs.drop a).take w).sum = ∑ j ∈ Finset.range w, xs.getD (a + j) 0 := by
  induction w generalizing a with
  | zero => simp
  | succ w ih =>
    have ha : a < xs.length := by omega
    rw [List.drop_eq_getElem_cons ha, List.take_succ_cons, List.sum_cons,
      ih (a + 1) (by omega), Finset.sum_range_succ']
    have hidx : ∀ j : ℕ, a + 1 + j = a + (j + 1) := by omega
    simp only [hidx, Nat.add_zero]
    rw [List.getD_eq_getElem xs 0 ha, add_comm]

lemma slice_sum_eq (rows : List DailyRec) (w : ℕ) {i : ℕ}
    (hw : w ≤ i + 1) (hi : i < rows.length) :
    (((rows.map (·.pm25)).drop (i + 1 - w)).take w).sum =
      ∑ j ∈ Finset.range w, (rows.getD (i + 1 - w + j) ⟨0, 0⟩).pm25 := by
  rw [sum_slice _ _ _ (by simp; omega)]
  exact Finset.sum_congr rfl fun j hj =>
    pm_getD rows (by simp at hj; omega)

/-! ## The fully-featured frame, column by column -/

lemma pipeFrame_pm25 (rows : List DailyRec) :
    (pipeFrame rows).pm25 = rows.map (·.pm25) := by
  simp [pipeFrame, add_target, add_calendar_features,
    add_rolling_averages, add_lag_features, initFrame]

lemma pipeFrame_lag (rows : List DailyRec) :
    (pipeFrame rows).pm25_lag_1 = shift 1 (rows.map (·.pm25)) ∧
    (pipeFrame rows).pm25_lag_2 = shift 2 (rows.map (·.pm25)) ∧
    (pipeFrame rows).pm25_lag_7 = shift 7 (rows.map (·.pm25)) := by
  refine ⟨?_, ?_, ?_⟩ <;>
    simp [pipeFrame, add_target, add_calendar_features,
      add_rolling_averages, add_lag_features, initFrame]

lemma pipeFrame_rolling (rows : List DailyRec) :
    (pipeFrame rows).pm25_rolling_3 = rollingMean 3 (rows.map (·.pm25)) ∧
    (pipeFrame rows).pm25_rolling_7 = rollingMean 7 (rows.map (·.pm25)) := by
  refine ⟨?_, ?_⟩ <;>
    simp [pipeFrame, add_target, add_calendar_features,
      add_rolling_averages, add_lag_features, initFrame]

lemma pipeFrame_calendar (rows : List DailyRec) :
    (pipeFrame rows).day_of_week =
      (rows.map (·.date)).map (fun d => weekdayOf (d + 1)) ∧
    (pipeFrame rows).month =
      (rows.map (·.date)).map (fun d => monthOf (d + 1)) := by
  refine ⟨?_, ?_⟩ <;>
    simp [pipeFrame, add_target, add_calendar_features,
      add_rolling_averages, add_lag_features, initFrame]

lemma pipeFrame_target (rows : List DailyRec) :
    (pipeFrame rows).pm25_next_day = shiftNeg (rows.map (·.pm25)) := by
  simp [pipeFrame, add_target, add_calendar_features,
    add_rolling_averages, add_lag_features, initFrame]

/-! ## Row completeness -/

lemma mapped_date_getElem? {γ : Type} (rows : List DailyRec) (g : ℤ → γ)
    {i : ℕ} (h : i < rows.length) :
    ((rows.map (·.date)).map g)[i]? = some (g ((rows.getD i ⟨0, 0⟩).date)) := by
  have h2 : i < (rows.map (·.date)).length := by simpa using h
  rw [List.getElem?_map, getElem?_of_lt _ 0 h2, Option.map_some',
    date_getD rows h]

lemma completeRow_none_left (f : Frame) (i : ℕ)
    (h : cell f.pm25_lag_7 i = none) : completeRow f i = none := by
  unfold completeRow
  rw [h]
  split <;> simp_all

lemma completeRow_none_right (f : Frame) (i : ℕ)
    (h : cell f.pm25_next_day i = none) : completeRow f i = none := by
  unfold completeRow
  rw [h]
  split <;> simp_all

/-- Row `i` of the fully-featured frame survives `dropna` exactly when
`7 ≤ i` and `i` is not the last row, and then it is `fullRow rows i`. -/
lemma completeRow_pipe (rows : List DailyRec) {i : ℕ}
    (hi : i < rows.length) :
    completeRow (pipeFrame rows) i =
      if 7 ≤ i ∧ i + 1 < rows.length then some (fullRow rows i)
      else none := by
  have hlen : (rows.map (·.pm25)).length = rows.length := by simp
  have hilen : i < (rows.map (·.pm25)).length := by omega
  obtain ⟨hl1, hl2, hl7⟩ := pipeFrame_lag rows
  obtain ⟨hr3, hr7⟩ := pipeFrame_rolling rows
  obtain ⟨hdw, hmo⟩ := pipeFrame_calendar rows
  by_cases hmain : 7 ≤ i ∧ i + 1 < rows.length
  · obtain ⟨h7, hnext⟩ := hmain
    rw [if_pos ⟨h7, hnext⟩]
    unfold completeRow
    rw [pipeFrame_pm25, hl1, hl2, hl7, hr3, hr7, hdw, hmo,
      pipeFrame_target,
      getElem?_of_lt _ 0 hilen,
      shift_cell 1 _ hilen, shift_cell 2 _ hilen, shift_cell 7 _ hilen,
      rollingMean_cell 3 _ hilen, rollingMean_cell 7 _ hilen,
      shiftNeg_cell _ hilen,
      mapped_date_getElem? rows (fun d => weekdayOf (d + 1)) hi,
      mapped_date_getElem? rows (fun d => monthOf (d + 1)) hi,
      if_pos (by omega : 1 ≤ i), if_pos (by omega : 2 ≤ i), if_pos h7,
      if_pos (by omega : 3 ≤ i + 1), if_pos (by omega : 7 ≤ i + 1),
      if_pos (by omega : i + 1 < (rows.map (·.pm25)).length)]
    have e3 := slice_sum_eq rows 3 (by omega) hi
    have e7 := slice_sum_eq rows 7 (by omega) hi
    unfold fullRow meanWindow
    rw [pm_getD rows hi, pm_getD rows (by omega : i - 1 < rows.length),
      pm_getD rows (by omega : i - 2 < rows.length),
      pm_getD rows (by omega : i - 7 < rows.length),
      pm_getD rows (by omega : i + 1 < rows.length),
      e3, e7]
  · rw [if_neg hmain]
    by_cases h7 : 7 ≤ i
    · have hnext : ¬ i + 1 < rows.length := fun hc => hmain ⟨h7, hc⟩
      apply completeRow_none_right
      rw [pipeFrame_target, shiftNeg_cell _ hilen, if_neg (by omega)]
    · apply completeRow_none_left
      rw [hl7, shift_cell 7 _ hilen, if_neg h7]

lemma filterMap_eq_map_of_mem {α β : Type} (g : α → Option β) (f : α → β) :
    ∀ l : List α, (∀ a ∈ l, g a = some (f a)) → l.filterMap g = l.map f := by
  intro l
  induction l with
  | nil => intro _; rfl
  | cons x xs ih =>
    intro h
    rw [List.filterMap_cons, h x (by simp), List.map_cons,
      ih fun a ha => h a (by simp [ha])]

/-- The processed dataset is, row for row, `fullRow` at indices
`7 … N - 2`. -/
lemma pipeline_eq (rows : List DailyRec) (h9 : 9 ≤ rows.length) :
    pipeline rows = (List.range' 7 (rows.length - 8)).map (fullRow rows) := by
  have hstart : pipeline rows =
      (List.range rows.length).filterMap (completeRow (pipeFrame rows)) := by
    unfold pipeline clean_and_save
    rw [pipeFrame_pm25, List.length_map]
  have hmid : List.range' 7 (rows.length - 8) ++
      List.range' (rows.length - 1) 1 = List.range' 7 (rows.length - 7) := by
    have := List.range'_append_1 7 (rows.length - 8) 1
    rw [show 7 + (rows.length - 8) = rows.length - 1 by omega,
      show 1 + (rows.length - 8) = rows.length - 7 by omega] at this
    exact this
  have hfull : List.range' 0 7 ++ List.range' 7 (rows.length - 7) =
      List.range' 0 rows.length := by
    have := List.range'_append_1 0 7 (rows.length - 7)
    rw [show (0 : ℕ) + 7 = 7 by omega,
      show rows.length - 7 + 7 = rows.length by omega] at this
    exact this
  rw [hstart, List.range_eq_range', ← hfull, ← hmid,
    List.filterMap_append, List.filterMap_append]
  have hseg1 : (List.range' 0 7).filterMap (completeRow (pipeFrame rows))
      = [] := by
    refine List.filterMap_eq_nil_iff.mpr fun a ha => ?_
    rw [List.mem_range'] at ha
    obtain ⟨j, hj, rfl⟩ := ha
    rw [completeRow_pipe rows (by omega), if_neg (by omega)]
  have hseg3 : (List.range' (rows.length - 1) 1).filterMap
      (completeRow (pipeFrame rows)) = [] := by
    refine List.filterMap_eq_nil_iff.mpr fun a ha => ?_
    rw [List.mem_range'] at ha
    obtain ⟨j, hj, rfl⟩ := ha
    rw [completeRow_pipe rows (by omega), if_neg (by omega)]
  have hseg2 : (List.range' 7 (rows.length - 8)).filterMap
      (completeRow (pipeFrame rows)) =
      (List.range' 7 (rows.length - 8)).map (fullRow rows) := by
    refine filterMap_eq_map_of_mem _ _ _ fun a ha => ?_
    rw [List.mem_range'] at ha
    obtain ⟨j, hj, rfl⟩ := ha
    rw [completeRow_pipe rows (by omega), if_pos (by omega)]
  rw [hseg1, hseg2, hseg3, List.append_nil, List.nil_append]

/-! ## Support lemmas: rounding, calendar bounds, AQI ladder -/

lemma roundHalfEven_nonneg {q : ℚ} (h : 0 ≤ q) : 0 ≤ roundHalfEven q := by
  unfold roundHalfEven
  have hf : (0 : ℤ) ≤ ⌊q⌋ := Int.floor_nonneg.mpr h
  dsimp only []
  split_ifs <;> omega

lemma rnd1_nonneg {q : ℚ} (h : 0 ≤ q) : 0 ≤ rnd1 q := by
  unfold rnd1
  have h10 : (0 : ℚ) ≤ 10 * q := by positivity
  have := roundHalfEven_nonneg h10
  have hc : (0 : ℚ) ≤ (roundHalfEven (10 * q) : ℚ) := by exact_mod_cast this
  positivity

lemma rnd1_zero : rnd1 0 = 0 := by
  unfold rnd1 roundHalfEven
  norm_num

lemma weekdayOf_bounds (z : ℤ) : 0 ≤ weekdayOf z ∧ weekdayOf z < 7 :=
  ⟨Int.emod_nonneg _ (by norm_num), Int.emod_lt_of_pos _ (by norm_num)⟩

lemma monthOf_bounds (z : ℤ) : 1 ≤ monthOf z ∧ monthOf z ≤ 12 := by
  unfold monthOf
  dsimp only []
  generalize (z + 719468).toNat = days
  split_ifs <;> omega

lemma aqi_eq_severity (x : ℚ) :
    pm25_to_aqi_category x = aqiCategories.getD (severityIndex x) "" := by
  unfold pm25_to_aqi_category severityIndex
  split_ifs <;> rfl

lemma severityIndex_mono {x y : ℚ} (h : x ≤ y) :
    severityIndex x ≤ severityIndex y := by
  unfold severityIndex
  split_ifs
  all_goals try norm_num
  all_goals exfalso
  all_goals linarith

lemma featureVector_eq (s : Sample) :
    featureVector s =
      [ s.pm25, s.pm25_lag_1, s.pm25_lag_2, s.pm25_lag_7,
        s.pm25_rolling_3, s.pm25_rolling_7,
        (s.day_of_week : ℚ), (s.month : ℚ) ] := rfl

/-! ## Claim theorems -/

/-- C1: Train/serve feature-order identity — for any processed training
row and any prediction request carrying the same eight underlying
values, the ordered vector `predict` assembles equals, element for
element and in the same order, the `FEATURE_COLUMNS` projection of the
training row. -/
theorem train_serve_feature_order (s : Sample) (r : PredictRequest)
    (h : r.pm25 = s.pm25 ∧ r.pm25_lag_1 = s.pm25_lag_1 ∧
      r.pm25_lag_2 = s.pm25_lag_2 ∧ r.pm25_lag_7 = s.pm25_lag_7 ∧
      r.pm25_rolling_3 = s.pm25_rolling_3 ∧
      r.pm25_rolling_7 = s.pm25_rolling_7 ∧
      r.day_of_week = s.day_of_week ∧ r.month = s.month) :
    featureVector s = assembledFeatures r := by
  obtain ⟨h1, h2, h3, h4, h5, h6, h7, h8⟩ := h
  rw [featureVector_eq]
  unfold assembledFeatures
  rw [h1, h2, h3, h4, h5, h6, h7, h8]

/-- C1 witness: the schema's example request against the matching
sample. -/
theorem train_serve_feature_order_witness :
    featureVector sample0 = assembledFeatures rq0 :=
  train_serve_feature_order sample0 rq0
    ⟨rfl, rfl, rfl, rfl, rfl, rfl, rfl, rfl⟩

/-- C7: the AQI categorizer is the EPA breakpoint ladder with inclusive
upper bounds evaluated in ascending order, monotone in severity, with
the advertised boundary values. -/
theorem aqi_category_ladder (x : ℚ) :
    (x ≤ 12.0 → pm25_to_aqi_category x = "Good") ∧
    (12.0 < x → x ≤ 35.4 → pm25_to_aqi_category x = "Moderate") ∧
    (35.4 < x → x ≤ 55.4 →
      pm25_to_aqi_category x = "Unhealthy for Sensitive Groups") ∧
    (55.4 < x → x ≤ 150.4 → pm25_to_aqi_category x = "Unhealthy") ∧
    (150.4 < x → x ≤ 250.4 → pm25_to_aqi_category x = "Very Unhealthy") ∧
    (250.4 < x → pm25_to_aqi_category x = "Hazardous") ∧
    (∀ y : ℚ, x ≤ y → severityIndex x ≤ severityIndex y) ∧
    pm25_to_aqi_category x = aqiCategories.getD (severityIndex x) "" ∧
    pm25_to_aqi_category 12.0 = "Good" ∧
    pm25_to_aqi_category 12.1 = "Moderate" ∧
    pm25_to_aqi_category 35.4 = "Moderate" ∧
    pm25_to_aqi_category 35.5 = "Unhealthy for Sensitive Groups" ∧
    pm25_to_aqi_category 400 = "Hazardous" := by
  refine ⟨?_, ?_, ?_, ?_, ?_, ?_,
    fun y hy => severityIndex_mono hy, aqi_eq_severity x,
    by norm_num [pm25_to_aqi_category], by norm_num [pm25_to_aqi_category],
    by norm_num [pm25_to_aqi_category], by norm_num [pm25_to_aqi_category],
    by norm_num [pm25_to_aqi_category]⟩
  · intro h1
    unfold pm25_to_aqi_category
    rw [if_pos h1]
  · intro h1 h2
    unfold pm25_to_aqi_category
    rw [if_neg (not_le.mpr h1), if_pos h2]
  · intro h1 h2
    unfold pm25_to_aqi_category
    rw [if_neg (by linarith), if_neg (not_le.mpr h1), if_pos h2]
  · intro h1 h2
    unfold pm25_to_aqi_category
    rw [if_neg (by linarith), if_neg (by linarith),
      if_neg (not_le.mpr h1), if_pos h2]
  · intro h1 h2
    unfold pm25_to_aqi_category
    rw [if_neg (by linarith), if_neg (by linarith), if_neg (by linarith),
      if_neg (not_le.mpr h1), if_pos h2]
  · intro h1
    unfold pm25_to_aqi_category
    rw [if_neg (by linarith), if_neg (by linarith), if_neg (by linarith),
      if_neg (by linarith), if_neg (not_le.mpr h1)]

/-- C7 witness: 50 µg/m³ falls in the third band. -/
theorem aqi_category_ladder_witness :
    pm25_to_aqi_category 50 = "Unhealthy for Sensitive Groups" :=
  (aqi_category_ladder 50).2.2.1 (by norm_num) (by norm_num)

/-- C10: the categorizer is total — every rational input, negative
ones included, lands in one of the six categories, and everything
≤ 12.0 is "Good". -/
theorem aqi_total_on_all_inputs (x : ℚ) :
    pm25_to_aqi_category x ∈ aqiCategories ∧
    (x ≤ 12.0 → pm25_to_aqi_category x = "Good") := by
  constructor
  · unfold pm25_to_aqi_category
    split_ifs <;> simp [aqiCategories]
  · intro h
    unfold pm25_to_aqi_category
    rw [if_pos h]

/-- C10 witness: a negative out-of-domain input still gets "Good". -/
theorem aqi_total_on_all_inputs_witness :
    pm25_to_aqi_category (-5) = "Good" ∧
    pm25_to_aqi_category (-5) ∈ aqiCategories :=
  ⟨(aqi_total_on_all_inputs (-5)).2 (by norm_num),
   (aqi_total_on_all_inputs (-5)).1⟩

/-- C8: whatever raw value the model returns — negative included — the
response value is that raw output clamped below at 0, then rounded to
one decimal, hence always non-negative. -/
theorem predict_clamped_rounded (m : Model) (r : PredictRequest)
    (resp : PredictResponse) (h : predict (some m) r = .ok resp) :
    resp.predicted_pm25 = rnd1 (max (m (assembledFeatures r)) 0) ∧
    0 ≤ resp.predicted_pm25 := by
  unfold predict at h
  injection h with h'
  rw [← h']
  exact ⟨rfl, rnd1_nonneg (le_max_right _ 0)⟩

/-- C8 witness: a model that outputs −5 yields a predicted value of 0. -/
theorem predict_clamped_rounded_witness :
    resp0.predicted_pm25 = rnd1 (max (m0 (assembledFeatures rq0)) 0) ∧
    0 ≤ resp0.predicted_pm25 :=
  predict_clamped_rounded m0 rq0 resp0 (by
    have h1 : max (m0 (assembledFeatures rq0)) 0 = 0 := by
      unfold m0
      exact max_eq_right (by norm_num)
    unfold predict
    dsimp only []
    rw [h1, rnd1_zero]
    norm_num [resp0, pm25_to_aqi_category, CITY])

/-- C9 counterexample: the claim covers a *corrupt* artifact too, but
the startup handler catches only `FileNotFoundError`; a corrupt
artifact raises a different exception, which escapes the `try` and
aborts startup — the process does crash. -/
theorem corrupt_artifact_crashes :
    startupModel ArtifactState.corrupt = LoadOutcome.crashed ∧
    startupModel ArtifactState.corrupt ≠ LoadOutcome.notLoaded :=
  ⟨rfl, fun h => LoadOutcome.noConfusion h⟩

/-- C9 (amended): whenever the model artifact is *missing* at startup,
the process keeps running with the model state `None`, every `predict`
call is rejected with HTTP 503 before reaching any model, and
`health_check` reports `model_loaded = false`. -/
theorem missing_model_handled :
    modelOf (startupModel ArtifactState.missing) = none ∧
    (∀ r : PredictRequest,
      predict (modelOf (startupModel ArtifactState.missing)) r =
        .error 503) ∧
    (health_check (modelOf (startupModel ArtifactState.missing))).model_loaded
      = false ∧
    (health_check (modelOf (startupModel ArtifactState.missing))).status
      = "model not loaded" :=
  ⟨rfl, fun _ => rfl, rfl, rfl⟩

/-- C2: lag features are positional — after `add_lag_features`, cell
`i` of `pm25_lag_k` (k = 1, 2, 7) holds the pm25 of row `i - k` when
`i - k ≥ 0` and is undefined otherwise; rows, not calendar days. -/
theorem lag_features_positional (rows : List DailyRec) (i : ℕ)
    (hi : i < rows.length) :
    (cell (add_lag_features (initFrame rows)).pm25_lag_1 i =
      if 1 ≤ i then some ((rows.getD (i - 1) ⟨0, 0⟩).pm25) else none) ∧
    (cell (add_lag_features (initFrame rows)).pm25_lag_2 i =
      if 2 ≤ i then some ((rows.getD (i - 2) ⟨0, 0⟩).pm25) else none) ∧
    (cell (add_lag_features (initFrame rows)).pm25_lag_7 i =
      if 7 ≤ i then some ((rows.getD (i - 7) ⟨0, 0⟩).pm25) else none) := by
  have hilen : i < (rows.map (·.pm25)).length := by simpa using hi
  refine ⟨?_, ?_, ?_⟩
  · simp only [add_lag_features, initFrame]
    rw [shift_cell 1 _ hilen]
    by_cases hk : 1 ≤ i
    · rw [if_pos hk, if_pos hk, pm_getD rows (by omega)]
    · rw [if_neg hk, if_neg hk]
  · simp only [add_lag_features, initFrame]
    rw [shift_cell 2 _ hilen]
    by_cases hk : 2 ≤ i
    · rw [if_pos hk, if_pos hk, pm_getD rows (by omega)]
    · rw [if_neg hk, if_neg hk]
  · simp only [add_lag_features, initFrame]
    rw [shift_cell 7 _ hilen]
    by_cases hk : 7 ≤ i
    · rw [if_pos hk, if_pos hk, pm_getD rows (by omega)]
    · rw [if_neg hk, if_neg hk]

/-- C2 witness: at row 7 of the nine-day series, lag 7 reads row 0. -/
theorem lag_features_positional_witness :
    cell (add_lag_features (initFrame sampleRows)).pm25_lag_7 7 =
      some 1 := by
  have h := (lag_features_positional sampleRows 7 (by decide)).2.2
  exact h.trans (by decide)

/-- C3: rolling averages — after `add_rolling_averages`, cell `i` of
`pm25_rolling_w` (w = 3, 7) is the mean of the pm25 of rows
`i - w + 1 … i` rounded to one decimal when at least `w` rows
precede-and-include `i`, and undefined otherwise. -/
theorem rolling_average_windows (rows : List DailyRec) (i : ℕ)
    (hi : i < rows.length) :
    (cell (add_rolling_averages
        (add_lag_features (initFrame rows))).pm25_rolling_3 i =
      if 3 ≤ i + 1 then some (rnd1 (meanWindow 3 rows i)) else none) ∧
    (cell (add_rolling_averages
        (add_lag_features (initFrame rows))).pm25_rolling_7 i =
      if 7 ≤ i + 1 then some (rnd1 (meanWindow 7 rows i)) else none) := by
  have hilen : i < (rows.map (·.pm25)).length := by simpa using hi
  constructor
  · simp only [add_rolling_averages, add_lag_features, initFrame]
    rw [rollingMean_cell 3 _ hilen]
    by_cases h3 : 3 ≤ i + 1
    · rw [if_pos h3, if_pos h3]
      unfold meanWindow
      rw [slice_sum_eq rows 3 h3 hi]
    · rw [if_neg h3, if_neg h3]
  · simp only [add_rolling_averages, add_lag_features, initFrame]
    rw [rollingMean_cell 7 _ hilen]
    by_cases h7 : 7 ≤ i + 1
    · rw [if_pos h7, if_pos h7]
      unfold meanWindow
      rw [slice_sum_eq rows 7 h7 hi]
    · rw [if_neg h7, if_neg h7]

/-- C3 witness: at row 2 of the nine-day series the 3-day rolling mean
is (1 + 2 + 3) / 3 = 2.0, and the 7-day one is still undefined. -/
theorem rolling_average_windows_witness :
    cell (add_rolling_averages
        (add_lag_features (initFrame sampleRows))).pm25_rolling_3 2 =
      some 2 ∧
    cell (add_rolling_averages
        (add_lag_features (initFrame sampleRows))).pm25_rolling_7 2 =
      none := by
  obtain ⟨h3, h7⟩ := rolling_average_windows sampleRows 2 (by decide)
  have hmw : meanWindow 3 sampleRows 2 = 2 := by
    unfold meanWindow sampleRows
    rw [Finset.sum_range_succ, Finset.sum_range_succ,
      Finset.sum_range_succ, Finset.sum_range_zero]
    norm_num
  have hr : rnd1 2 = 2 := by
    unfold rnd1 roundHalfEven
    norm_num
  constructor
  · rw [h3, if_pos (by norm_num), hmw, hr]
  · rw [h7, if_neg (by norm_num)]

/-- C4: calendar features describe the predicted day — after
`add_calendar_features`, row `i` carries the weekday (Monday = 0 …
Sunday = 6) and the month (1–12) of date `dᵢ + 1`, not of `dᵢ`. -/
theorem calendar_features_tomorrow (rows : List DailyRec) (i : ℕ)
    (hi : i < rows.length) :
    ((add_calendar_features (add_rolling_averages
        (add_lag_features (initFrame rows)))).day_of_week[i]? =
      some (weekdayOf ((rows.getD i ⟨0, 0⟩).date + 1))) ∧
    ((add_calendar_features (add_rolling_averages
        (add_lag_features (initFrame rows)))).month[i]? =
      some (monthOf ((rows.getD i ⟨0, 0⟩).date + 1))) ∧
    (0 ≤ weekdayOf ((rows.getD i ⟨0, 0⟩).date + 1) ∧
      weekdayOf ((rows.getD i ⟨0, 0⟩).date + 1) < 7) ∧
    (1 ≤ monthOf ((rows.getD i ⟨0, 0⟩).date + 1) ∧
      monthOf ((rows.getD i ⟨0, 0⟩).date + 1) ≤ 12) := by
  refine ⟨?_, ?_, weekdayOf_bounds _, monthOf_bounds _⟩
  · simp only [add_calendar_features, add_rolling_averages,
      add_lag_features, initFrame]
    exact mapped_date_getElem? rows _ hi
  · simp only [add_calendar_features, add_rolling_averages,
      add_lag_features, initFrame]
    exact mapped_date_getElem? rows _ hi

/-- C4 witness: row 0 holds 2024-01-01 (a Monday); its calendar
features are those of 2024-01-02: Tuesday (1), January (1). -/
theorem calendar_features_tomorrow_witness :
    (add_calendar_features (add_rolling_averages
        (add_lag_features (initFrame sampleRows)))).day_of_week[0]? =
      some 1 ∧
    (add_calendar_features (add_rolling_averages
        (add_lag_features (initFrame sampleRows)))).month[0]? =
      some 1 := by
  obtain ⟨hd, hm, _, _⟩ := calendar_features_tomorrow sampleRows 0 (by decide)
  exact ⟨hd.trans (by decide), hm.trans (by decide)⟩

/-- C5: row-dropping is exact — for any daily series of length
`N ≥ 9`, the processed dataset keeps, in order, exactly the fully-
featured rows 7 … N − 2: the first seven rows (insufficient history)
and the last row (no next-day target) are dropped, and nothing else. -/
theorem processed_rows_dropped (rows : List DailyRec)
    (h9 : 9 ≤ rows.length) :
    (pipeline rows).length = rows.length - 8 ∧
    ∀ j, j < rows.length - 8 →
      (pipeline rows)[j]? = some (fullRow rows (j + 7)) := by
  have hp := pipeline_eq rows h9
  constructor
  · rw [hp, List.length_map, List.length_range']
  · intro j hj
    rw [hp, List.getElem?_map, List.getElem?_range' 7 1 hj,
      Option.map_some']
    have : 7 + 1 * j = j + 7 := by omega
    rw [this]

/-- C5 witness: the nine-day series keeps exactly one row, row 7. -/
theorem processed_rows_dropped_witness :
    (pipeline sampleRows).length = 1 ∧
    (pipeline sampleRows)[0]? = some (fullRow sampleRows 7) := by
  obtain ⟨h1, h2⟩ := processed_rows_dropped sampleRows (by decide)
  exact ⟨h1.trans (by decide), h2 0 (by decide)⟩

/-- C6: the chronological split puts rows `[0, ⌊N·(1 − TEST_SIZE)⌋)`
into Train and the rest into Test, in original order, for both `X` and
`y`; under strictly increasing dates every Train date is strictly
earlier than every Test date. -/
theorem chronological_split_ordered {α β : Type} (X : List α)
    (y : List β) (dateOf : α → ℤ)
    (hsorted : X.Pairwise fun a b => dateOf a < dateOf b) :
    (chronological_split X y).1 = X.take (split_idx X.length) ∧
    (chronological_split X y).2.1 = X.drop (split_idx X.length) ∧
    (chronological_split X y).2.2.1 = y.take (split_idx X.length) ∧
    (chronological_split X y).2.2.2 = y.drop (split_idx X.length) ∧
    (chronological_split X y).1 ++ (chronological_split X y).2.1 = X ∧
    ∀ a ∈ (chronological_split X y).1,
      ∀ b ∈ (chronological_split X y).2.1, dateOf a < dateOf b := by
  refine ⟨rfl, rfl, rfl, rfl, List.take_append_drop _ _, ?_⟩
  have h := hsorted
  rw [← List.take_append_drop (split_idx X.length) X,
    List.pairwise_append] at h
  intro a ha b hb
  exact h.2.2 a ha b hb

/-- C6 witness: on five strictly increasing dates the split is 4 / 1
and the one Test date exceeds a Train date. -/
theorem chronological_split_ordered_witness : (3 : ℤ) < 4 := by
  have hsplit : split_idx dates5.length = 4 := by
    show split_idx 5 = 4
    unfold split_idx TEST_SIZE
    norm_num
    rfl
  have h1 : (3 : ℤ) ∈ (chronological_split dates5 dates5).1 := by
    show (3 : ℤ) ∈ dates5.take (split_idx dates5.length)
    rw [hsplit]
    decide
  have h2 : (4 : ℤ) ∈ (chronological_split dates5 dates5).2.1 := by
    show (4 : ℤ) ∈ dates5.drop (split_idx dates5.length)
    rw [hsplit]
    decide
  exact (chronological_split_ordered dates5 dates5 id
    (by decide)).2.2.2.2.2 3 h1 4 h2

end AirQuality
